import Mathlib

/-!
Verification development for `h5py/ipy_completer.py`, the IPython
tab-completion extension of h5py.

The module is shallowly embedded: Python strings become `List Char`
(completion lines never contain a newline, so the `.`/`$` regex
behaviour needs no newline special-casing), Python exceptions become an
explicit `Exn` type threaded through `Except`, and the live objects the
completer inspects become a small inductive `PyObj` capturing exactly
the capabilities the module uses (`keys()`, `obj[key]`, `dir(obj)`, and
the `isinstance (AttributeManager, HLObject)` test).

The three module-level regular expressions (`re_attr_match`,
`re_item_match`, `re_object_match`) are embedded by their derived match
semantics under Python's leftmost / greedy / lazy backtracking rules,
specialised to the concrete patterns; `re.split` on a matching line
yields the capture groups, and on a non-matching line yields the
one-element list whose slice makes the tuple unpacking raise
`ValueError`, which is modelled directly as the error result of the
match functions.

Host-shell services are fields of a `Shell` record: `evalFn` models
`eval` in the interactive namespace (the two `eval` calls in
`_retrieve_obj` are version shims for the same user namespace),
`ofind` models `self._ofind(base).get('obj')`, `completeObject` models
the IPython generic `generics.complete_object` (returning `none` models
its `TryNext` contract), and the three `omitNames` fields model the
version-dependent lookup chain for the `omit__names` setting (`none`
standing for an `AttributeError` or a `None` value, which the chain
treats alike).  `readline` is modelled as importable wherever the hook
runs, since `load_ipython_extension` registers the hook only in that
case; the `set_completer_delims` calls are value-irrelevant side
effects and are dropped.
-/

/-- Python strings, as lists of characters. -/
abbrev Str := List Char

/-- The Python exceptions distinguished by the module's control flow. -/
inductive Exn where
  | valueError
  | attributeError
  | keyError
  | tryNext
  | indexError
  | evalExn
  deriving DecidableEq, Repr

deriving instance DecidableEq for Except

/-- A live object as the completer sees it: the result of `keys()`
(`none` meaning the attribute access raises `AttributeError`), the
string-keyed item mapping used by `obj[path]` (a missing key raises
`KeyError`), the attribute listing `dir(obj)`, and whether the object
is an instance of `AttributeManager` or `HLObject`. -/
inductive PyObj where
  | mk : Option (List Str) → List (Str × PyObj) → List Str → Bool → PyObj

def PyObj.keys? : PyObj → Option (List Str)
  | .mk k _ _ _ => k

def PyObj.itemMap : PyObj → List (Str × PyObj)
  | .mk _ i _ _ => i

def PyObj.dirList : PyObj → List Str
  | .mk _ _ d _ => d

def PyObj.isCompletable : PyObj → Bool
  | .mk _ _ _ b => b

/-- `obj[key]`: association lookup; a missing key raises `KeyError`. -/
def PyObj.getItem (o : PyObj) (k : Str) : Except Exn PyObj :=
  match o.itemMap.lookup k with
  | some v => Except.ok v
  | none => Except.error Exn.keyError

/-- The host interactive shell, as used by the completer. -/
structure Shell where
  evalFn : Str → Except Exn PyObj
  ofind : Str → Option PyObj
  completeObject : PyObj → List Str → Option (List Str)
  omitNames1 : Option Int
  omitNames2 : Option Int
  omitNames3 : Option Int

/-! ### Derived match semantics of the three regular expressions

Each pattern begins with the optional greedy group `(?:.*\=)?`, whose
backtracking tries the candidate end positions `p + 1` for each `'='`
at position `p`, from the rightmost `'='` leftwards, and finally the
empty alternative; whenever any match exists, the leftmost match starts
at position 0 of the line. -/

/-- Positions `n-1, n-2, ..., 0`: the order in which a greedy
subpattern's candidate positions are tried. -/
def descRange (n : Nat) : List Nat :=
  (List.range n).reverse

/-- Candidate end positions of `(?:.*\=)?`, in backtracking order:
one past each `'='` from the right, then 0 for the empty alternative. -/
def eqKs (s : Str) : List Nat :=
  ((descRange s.length).filter fun p => decide (s[p]? = some '=')).map (fun p => p + 1) ++ [0]

/-- The character class `['|"]` of `re_item_match` (the `|` is literal
inside a character class). -/
def quoteChars : Str := ['\'', '|', '"']

/-- Position `j` can host the `\[(?P<s>['|"])(?!.*(?P=s))` part of
`re_item_match`: `'['` at `j`, a quote character at `j+1`, and that
quote character nowhere later in the line. -/
def isValidItemJ (s : Str) (j : Nat) : Bool :=
  decide (s[j]? = some '[') &&
    match s[j + 1]? with
    | some q => quoteChars.contains q && !((s.drop (j + 2)).contains q)
    | none => false

/-- Greedy choice of the `(.*)\[` split point at or after `k`. -/
def maxValidItemJ (s : Str) (k : Nat) : Option Nat :=
  (descRange s.length).find? fun j => decide (k ≤ j) && isValidItemJ s j

/-- Match semantics of
`re_item_match = (?:.*\=)?(.*)\[(?P<s>['|"])(?!.*(?P=s))(.*)$`:
the captured `(base, item)` pair that
`re_item_match.split(command)[1:4:2]` unpacks, or `none` when the line
does not match (and the unpacking of the empty slice raises
`ValueError`). -/
def itemMatch (s : Str) : Option (Str × Str) :=
  (eqKs s).findSome? fun k =>
    (maxValidItemJ s k).map fun j => ((s.drop k).take (j - k), s.drop (j + 2))

/-- Python's `\w` on the identifier characters completion lines use. -/
def isWordChar (c : Char) : Bool :=
  c.isAlphanum || c = '_'

/-- Everything after position `d` is made of word characters, so
`\.(\w*)$` can match with the `'.'` at `d`. -/
def tailWord (s : Str) (d : Nat) : Bool :=
  (s.drop (d + 1)).all isWordChar

/-- Greedy choice of the position of the `\.` of `re_attr_match`,
after the `\]` at `b`. -/
def findAttrD (s : Str) (b : Nat) : Option Nat :=
  (descRange s.length).find? fun d =>
    decide (b < d) && decide (s[d]? = some '.') && tailWord s d

/-- Greedy choice of the `\]` position after the `\[` at `a`, then of
the dot position. -/
def findAttrBD (s : Str) (a : Nat) : Option Nat :=
  ((descRange s.length).filter fun b => decide (a < b) && decide (s[b]? = some ']')).findSome?
    (findAttrD s)

/-- Greedy choice of the `\[` position (at least one character after
`k`, for the `.+` before it), then of the rest. -/
def findAttrABD (s : Str) (k : Nat) : Option Nat :=
  ((descRange s.length).filter fun a => decide (k + 1 ≤ a) && decide (s[a]? = some '[')).findSome?
    (findAttrBD s)

/-- Match semantics of
`re_attr_match = (?:.*\=)?(.+\[.*\].*)\.(\w*)$`: the captured
`(base, attr)` pair that `re_attr_match.split(command)[1:3]` unpacks,
or `none` when the line does not match. -/
def attrMatch (s : Str) : Option (Str × Str) :=
  (eqKs s).findSome? fun k =>
    (findAttrABD s k).map fun d => ((s.drop k).take (d - k), s.drop (d + 1))

/-- Lazy choice of the `(.+?)(?:\[)` split point: the first `'['` at
least one character after `k`. -/
def minBracketJ (s : Str) (k : Nat) : Option Nat :=
  (List.range s.length).find? fun j => decide (k + 1 ≤ j) && decide (s[j]? = some '[')

/-- Match semantics of `re_object_match = (?:.*\=)?(.+?)(?:\[)`: the
first capture group that `re_object_match.split(event.line)[1]`
extracts, or `none` when the line does not match (and the index `[1]`
into the one-element split raises `IndexError`). -/
def objectMatch (s : Str) : Option Str :=
  (eqKs s).findSome? fun k =>
    (minBracketJ s k).map fun j => (s.drop k).take (j - k)

/-! ### The posixpath functions used by the item completer -/

/-- Rightmost position of `c` in `s` (`str.rfind`), as an option. -/
def rfind (s : Str) (c : Char) : Option Nat :=
  (descRange s.length).find? fun i => decide (s[i]? = some c)

/-- `str.rstrip('/')`: drop trailing slashes. -/
def rstripSlash (s : Str) : Str :=
  (s.reverse.dropWhile fun c => decide (c = '/')).reverse

/-- `posixpath.split`: split after the last `'/'`; the head keeps its
trailing slashes only when it consists entirely of slashes. -/
def posixSplit (p : Str) : Str × Str :=
  match rfind p '/' with
  | none => ([], p)
  | some i =>
    let head := p.take (i + 1)
    let tail := p.drop (i + 1)
    if head.isEmpty || head.all (fun c => decide (c = '/')) then (head, tail)
    else (rstripSlash head, tail)

/-- `posixpath.join` on two components. -/
def posixJoin (a b : Str) : Str :=
  if b.head? = some '/' then b
  else if a = [] ∨ a.getLast? = some '/' then a ++ b
  else a ++ '/' :: b

/-- `str.strip()`: drop leading and trailing whitespace. -/
def strip (s : Str) : Str :=
  ((s.dropWhile Char.isWhitespace).reverse.dropWhile Char.isWhitespace).reverse

/-! ### The completer functions -/

/-- `_retrieve_obj`: refuse to evaluate any expression containing
`'('`, then evaluate the name in the interactive namespace. -/
def _retrieve_obj (ctx : Shell) (name : Str) : Except Exn PyObj :=
  if name.contains '(' then Except.error Exn.valueError
  else ctx.evalFn name

/-- The `try`-block of `h5py_item_completer` that builds the candidate
item names: for a nonempty path, the names of `obj[path]` joined onto
the path (a failing item lookup propagates its exception, a missing
`keys` raises `AttributeError`); otherwise `obj.keys()`. -/
def listItems (obj : PyObj) (path : Str) : Except Exn (List Str) :=
  if path ≠ [] then
    match obj.getItem path with
    | Except.error e => Except.error e
    | Except.ok sub =>
      match sub.keys? with
      | none => Except.error Exn.attributeError
      | some ks => Except.ok (ks.map fun name => posixJoin path name)
  else
    match obj.keys? with
    | none => Except.error Exn.attributeError
    | some ks => Except.ok ks

/-- `h5py_item_completer`: split the line by `re_item_match` (a failed
unpacking raises `ValueError`), resolve the base (any failure yields no
completions), list the items (`AttributeError` yields no completions,
other exceptions propagate), and keep the candidates having the typed
item token as a prefix. -/
def h5py_item_completer (ctx : Shell) (command : Str) : Except Exn (List Str) :=
  match itemMatch command with
  | none => Except.error Exn.valueError
  | some (base, item) =>
    match _retrieve_obj ctx base with
    | Except.error _ => Except.ok []
    | Except.ok obj =>
      match listItems obj (posixSplit item).1 with
      | Except.error Exn.attributeError => Except.ok []
      | Except.error e => Except.error e
      | Except.ok items => Except.ok (items.filter fun i => decide (i.take item.length = item))

/-- Lines 139-143 of the source: `dir(obj)`, possibly replaced by the
result of the shell's `complete_object` generic, whose `TryNext`
(modelled as `none`) leaves the `dir` listing in place. -/
def extendAttrs (ctx : Shell) (obj : PyObj) : List Str :=
  match ctx.completeObject obj obj.dirList with
  | some l => l
  | none => obj.dirList

/-- The `omit__names` lookup chain of lines 145-162: the first setting
the version shims find, defaulting to 0. -/
def resolveOmitNames (ctx : Shell) : Int :=
  match ctx.omitNames1 with
  | some v => v
  | none =>
    match ctx.omitNames2 with
    | some v => v
    | none => ctx.omitNames3.getD 0

/-- The filtering of lines 163-166: setting 1 drops names starting
with `__`, setting 2 drops names starting with `_`, anything else
keeps the listing unchanged. -/
def omitFilter (n : Int) (attrs : List Str) : List Str :=
  if n = 1 then attrs.filter fun a => !(decide (a.take 2 = ['_', '_']))
  else if n = 2 then attrs.filter fun a => !(decide (a.take 1 = ['_']))
  else attrs

/-- `h5py_attr_completer`: split the line by `re_attr_match` (a failed
unpacking raises `ValueError`), strip the base, resolve it (any
failure yields no completions), list and filter the attributes, and
format the candidates having the typed attribute token as a prefix. -/
def h5py_attr_completer (ctx : Shell) (command : Str) : Except Exn (List Str) :=
  match attrMatch command with
  | none => Except.error Exn.valueError
  | some (base0, attr) =>
    let base := strip base0
    match _retrieve_obj ctx base with
    | Except.error _ => Except.ok []
    | Except.ok obj =>
      let attrs := omitFilter (resolveOmitNames ctx) (extendAttrs ctx obj)
      Except.ok ((attrs.filter fun a => decide (a.take attr.length = attr)).map
        fun a => base ++ '.' :: a)

/-- The `isinstance(..., (AttributeManager, HLObject))` test applied to
`self._ofind(base).get('obj')` (a missing entry gives `None`, which is
not an instance). -/
def isH5pyInstance : Option PyObj → Bool
  | some o => o.isCompletable
  | none => false

/-- Lines 180-190 of the source: try the attribute completer and the
item completer in turn, treating a `ValueError` from either as a
non-matching line, and fall back to no completions. -/
def completerFallback (ctx : Shell) (line : Str) : Except Exn (List Str) :=
  match h5py_attr_completer ctx line with
  | Except.error Exn.valueError =>
    match h5py_item_completer ctx line with
    | Except.error Exn.valueError => Except.ok []
    | r => r
  | r => r

/-- `h5py_completer`: extract the object expression before the `'['`
(no match raises `IndexError`), decline with `TryNext` unless an h5py
object is found, then run the two sub-completers. -/
def h5py_completer (ctx : Shell) (line : Str) : Except Exn (List Str) :=
  match objectMatch line with
  | none => Except.error Exn.indexError
  | some base =>
    if isH5pyInstance (ctx.ofind base) then completerFallback ctx line
    else Except.error Exn.tryNext

/-! ### Extension loading -/

/-- The one completer function this module registers. -/
inductive HookFn where
  | h5pyCompleterFn
  deriving DecidableEq, Repr

/-- The observable shell state touched by `load_ipython_extension`:
the registered `(hook name, function, re_key)` triples and the issued
warnings. -/
structure IpState where
  hooks : List (String × HookFn × String)
  warnings : List String
  deriving DecidableEq, Repr

/-- The `re_key` passed to `set_hook` on line 198. -/
def objectKeyRe : String := "(?:.*\\=)?(.+?)\\["

/-- The warning issued when readline is unavailable. -/
def readlineWarning : String := "Readline is not available to enable completions."

/-- `load_ipython_extension`: with readline importable, register the
completer for `complete_command` under the object key regex; otherwise
only warn. -/
def load_ipython_extension (readlineAvailable : Bool) (ip : IpState) : IpState :=
  if readlineAvailable then
    { ip with hooks := ip.hooks ++ [("complete_command", HookFn.h5pyCompleterFn, objectKeyRe)] }
  else
    { ip with warnings := ip.warnings ++ [readlineWarning] }

/-! ### Claim-side reading of the nested item split

Claim C4 describes the nested-path handling as splitting the typed
token into `(path, leaf)` "at the last '/'"; the following definition
follows those words literally, to be compared with the source's
`posixpath.split`. -/

/-- The claim's literal split: everything strictly before the last
`'/'`, and everything after it. -/
def splitAtLastSlash (p : Str) : Str × Str :=
  match rfind p '/' with
  | none => ([], p)
  | some i => (p.take i, p.drop (i + 1))

/-- The item-completion result as claim C4 describes it for a token
containing `'/'`: split the token at the last slash, look up
`obj[path]`, join and filter; `none` when any step of that description
fails to produce a list. -/
def claimC4Items (ctx : Shell) (command : Str) : Option (List Str) :=
  match itemMatch command with
  | none => none
  | some (base, item) =>
    match _retrieve_obj ctx base with
    | Except.error _ => none
    | Except.ok obj =>
      let path := (splitAtLastSlash item).1
      match obj.getItem path with
      | Except.error _ => none
      | Except.ok sub =>
        match sub.keys? with
        | none => none
        | some ks =>
          some ((ks.map fun name => posixJoin path name).filter
            fun i => decide (i.take item.length = item))

/-! ### Concrete shells and objects for the closed instances below -/

/-- A group-like object with three member names. -/
def exObjC1 : PyObj :=
  PyObj.mk (some [("item1".data), ("item2".data), ("other".data)]) [] [] true

def exShellC1 : Shell :=
  { evalFn := fun n => if n = ("f".data) then Except.ok exObjC1 else Except.error Exn.evalExn
    ofind := fun n => if n = ("f".data) then some exObjC1 else none
    completeObject := fun _ _ => none
    omitNames1 := none
    omitNames2 := none
    omitNames3 := none }

/-- An h5py-like object with no members at all. -/
def exObjC2 : PyObj := PyObj.mk (some []) [] [] true

def exShellC2 : Shell :=
  { evalFn := fun n => if n = ("f".data) then Except.ok exObjC2 else Except.error Exn.evalExn
    ofind := fun n => if n = ("f".data) then some exObjC2 else none
    completeObject := fun _ _ => none
    omitNames1 := none
    omitNames2 := none
    omitNames3 := none }

def exObjC3 : PyObj :=
  PyObj.mk (some [("item1".data), ("item2".data), ("other".data)]) [] [] true

def exShellC3 : Shell :=
  { evalFn := fun n => if n = ("f".data) then Except.ok exObjC3 else Except.error Exn.evalExn
    ofind := fun n => if n = ("f".data) then some exObjC3 else none
    completeObject := fun _ _ => none
    omitNames1 := none
    omitNames2 := none
    omitNames3 := none }

/-- The root group reachable as `f['/']`, with one member `x1`. -/
def exSubC4 : PyObj := PyObj.mk (some [("x1".data)]) [] [] true

/-- A file-like object whose only item key is `"/"`. -/
def exRootC4 : PyObj := PyObj.mk none [(("/".data), exSubC4)] [] true

def exShellC4 : Shell :=
  { evalFn := fun n => if n = ("f".data) then Except.ok exRootC4 else Except.error Exn.evalExn
    ofind := fun n => if n = ("f".data) then some exRootC4 else none
    completeObject := fun _ _ => none
    omitNames1 := none
    omitNames2 := none
    omitNames3 := none }

/-- An object whose attribute listing is the single dunder name `__x`. -/
def exObjC5 : PyObj := PyObj.mk none [] [("__x".data)] true

/-- A shell whose completer settings resolve `omit__names` to 1. -/
def exShellC5 : Shell :=
  { evalFn := fun n => if n = ("f['a']".data) then Except.ok exObjC5 else Except.error Exn.evalExn
    ofind := fun n => if n = ("f".data) then some exObjC5 else none
    completeObject := fun _ _ => none
    omitNames1 := some 1
    omitNames2 := none
    omitNames3 := none }

def exObjC5w : PyObj :=
  PyObj.mk none [] [("attrs".data), ("at2".data), ("shape".data)] true

def exShellC5w : Shell :=
  { evalFn := fun n => if n = ("f['a']".data) then Except.ok exObjC5w else Except.error Exn.evalExn
    ofind := fun n => if n = ("f".data) then some exObjC5w else none
    completeObject := fun _ _ => none
    omitNames1 := none
    omitNames2 := none
    omitNames3 := none }

def exObjC6 : PyObj := PyObj.mk (some []) [] [] true

def exShellC6 : Shell :=
  { evalFn := fun n => if n = ("g".data) then Except.ok exObjC6 else Except.error Exn.evalExn
    ofind := fun n => if n = ("g".data) then some exObjC6 else none
    completeObject := fun _ _ => none
    omitNames1 := none
    omitNames2 := none
    omitNames3 := none }

def exObjC6w : PyObj := PyObj.mk (some [("item1".data)]) [] [] true

def exShellC6w : Shell :=
  { evalFn := fun n => if n = ("h".data) then Except.ok exObjC6w else Except.error Exn.evalExn
    ofind := fun n => if n = ("h".data) then some exObjC6w else none
    completeObject := fun _ _ => none
    omitNames1 := none
    omitNames2 := none
    omitNames3 := none }

/-- A shell in which every evaluation fails (an undefined name). -/
def exShellC7 : Shell :=
  { evalFn := fun _ => Except.error Exn.evalExn
    ofind := fun _ => none
    completeObject := fun _ _ => none
    omitNames1 := none
    omitNames2 := none
    omitNames3 := none }

def exObjC8 : PyObj := PyObj.mk (some [("z".data)]) [] [("z".data)] true

/-- A shell in which every evaluation would succeed, to show the
refusal of `'('` does not depend on the evaluator. -/
def exShellC8 : Shell :=
  { evalFn := fun _ => Except.ok exObjC8
    ofind := fun _ => some exObjC8
    completeObject := fun _ _ => none
    omitNames1 := none
    omitNames2 := none
    omitNames3 := none }

def exObjC9 : PyObj :=
  PyObj.mk none [] [("__priv".data), ("_semi".data), ("pub".data)] true

def exShellC9 : Shell :=
  { evalFn := fun n => if n = ("f['a']".data) then Except.ok exObjC9 else Except.error Exn.evalExn
    ofind := fun n => if n = ("f".data) then some exObjC9 else none
    completeObject := fun _ _ => none
    omitNames1 := some 1
    omitNames2 := none
    omitNames3 := none }

/-! ### Helper lemmas -/

theorem rfind_eq_none_of_not_mem {s : Str} {c : Char} (h : c ∉ s) : rfind s c = none := by
  unfold rfind
  rw [List.find?_eq_none]
  intro i _hi
  simp only [decide_eq_true_eq]
  intro hie
  exact h (List.getElem?_mem hie)

theorem rfind_spec {s : Str} {c : Char} {i : Nat} (h : rfind s c = some i) :
    s[i]? = some c := by
  have := List.find?_some h
  simpa using this

theorem rfind_isSome_of_mem {s : Str} {c : Char} (h : c ∈ s) : (rfind s c).isSome := by
  unfold rfind
  rw [List.find?_isSome]
  obtain ⟨i, hi, hgi⟩ := List.getElem_of_mem h
  refine ⟨i, ?_, ?_⟩
  · simp [descRange, List.mem_reverse, List.mem_range, hi]
  · simp [List.getElem?_eq_getElem hi, hgi]

theorem posixSplit_eq_of_not_mem {p : Str} (h : '/' ∉ p) : posixSplit p = ([], p) := by
  unfold posixSplit
  rw [rfind_eq_none_of_not_mem h]

theorem dropWhile_ne_nil_of_mem {p : Char → Bool} {l : Str} {a : Char}
    (ha : a ∈ l) (hpa : p a = false) : l.dropWhile p ≠ [] := by
  induction l with
  | nil => cases ha
  | cons x xs ih =>
    rw [List.dropWhile_cons]
    split
    · next hx =>
      rcases List.mem_cons.mp ha with rfl | hmem
      · rw [hpa] at hx; cases hx
      · exact ih hmem
    · simp

theorem rstripSlash_ne_nil {s : Str} {a : Char} (ha : a ∈ s) (hne : a ≠ '/') :
    rstripSlash s ≠ [] := by
  unfold rstripSlash
  rw [ne_eq, List.reverse_eq_nil_iff]
  exact dropWhile_ne_nil_of_mem (List.mem_reverse.mpr ha) (by simp [hne])

theorem posixSplit_fst_ne_nil {p : Str} (h : '/' ∈ p) : (posixSplit p).1 ≠ [] := by
  obtain ⟨i, hr⟩ := Option.isSome_iff_exists.mp (rfind_isSome_of_mem h)
  have hgi : p[i]? = some '/' := rfind_spec hr
  have hil : i < p.length := by
    by_contra hge
    rw [List.getElem?_eq_none (by omega)] at hgi
    cases hgi
  unfold posixSplit
  rw [hr]
  dsimp only
  split
  · dsimp only
    intro hnil
    have hlen : (p.take (i + 1)).length = 0 := by rw [hnil]; rfl
    rw [List.length_take] at hlen
    omega
  · next hcond =>
    dsimp only
    simp only [Bool.or_eq_true, not_or, Bool.not_eq_true] at hcond
    obtain ⟨c, hc, hcp⟩ := List.all_eq_false.mp hcond.2
    exact rstripSlash_ne_nil hc (by simpa using hcp)

theorem getItem_error {o : PyObj} {k : Str} {e : Exn} (h : o.getItem k = Except.error e) :
    e = Exn.keyError := by
  unfold PyObj.getItem at h
  cases hl : o.itemMap.lookup k with
  | some v => rw [hl] at h; cases h
  | none =>
    rw [hl] at h
    injection h with h'
    exact h'.symm

theorem listItems_error {obj : PyObj} {path : Str} {e : Exn}
    (h : listItems obj path = Except.error e) :
    e = Exn.attributeError ∨ e = Exn.keyError := by
  unfold listItems at h
  split at h
  · cases hg : obj.getItem path with
    | error e2 =>
      rw [hg] at h
      injection h with h'
      right
      rw [← h']
      exact getItem_error hg
    | ok sub =>
      rw [hg] at h
      dsimp only at h
      cases hk : sub.keys? with
      | none => rw [hk] at h; injection h with h'; left; exact h'.symm
      | some ks => rw [hk] at h; cases h
  · cases hk : obj.keys? with
    | none => rw [hk] at h; injection h with h'; left; exact h'.symm
    | some ks => rw [hk] at h; cases h

theorem attr_completer_eq (ctx : Shell) (cmd base0 attr : Str) (obj : PyObj)
    (hm : attrMatch cmd = some (base0, attr))
    (ho : _retrieve_obj ctx (strip base0) = Except.ok obj) :
    h5py_attr_completer ctx cmd =
      Except.ok (((omitFilter (resolveOmitNames ctx) (extendAttrs ctx obj)).filter
          fun a => decide (a.take attr.length = attr)).map
        fun a => strip base0 ++ '.' :: a) := by
  simp only [h5py_attr_completer, hm, ho]

theorem attr_completer_error {ctx : Shell} {cmd : Str} {e : Exn}
    (h : h5py_attr_completer ctx cmd = Except.error e) : e = Exn.valueError := by
  unfold h5py_attr_completer at h
  cases hm : attrMatch cmd with
  | none =>
    rw [hm] at h
    injection h with h'
    exact h'.symm
  | some be =>
    obtain ⟨base0, attr⟩ := be
    rw [hm] at h
    dsimp only at h
    cases ho : _retrieve_obj ctx (strip base0) with
    | error e2 => rw [ho] at h; cases h
    | ok obj => rw [ho] at h; cases h

theorem item_completer_error {ctx : Shell} {cmd : Str} {e : Exn}
    (h : h5py_item_completer ctx cmd = Except.error e) :
    e = Exn.valueError ∨ e = Exn.keyError := by
  unfold h5py_item_completer at h
  cases hm : itemMatch cmd with
  | none =>
    rw [hm] at h
    injection h with h'
    left
    exact h'.symm
  | some be =>
    obtain ⟨base, item⟩ := be
    rw [hm] at h
    dsimp only at h
    cases ho : _retrieve_obj ctx base with
    | error e2 => rw [ho] at h; cases h
    | ok obj =>
      rw [ho] at h
      dsimp only at h
      cases hl : listItems obj (posixSplit item).1 with
      | error e2 =>
        rw [hl] at h
        rcases listItems_error hl with rfl | rfl
        · cases h
        · right
          injection h with h'
          exact h'.symm
      | ok items => rw [hl] at h; cases h

theorem item_completer_keys (ctx : Shell) (cmd base item : Str) (obj : PyObj) (ks : List Str)
    (hm : itemMatch cmd = some (base, item)) (hnd : '/' ∉ item)
    (ho : _retrieve_obj ctx base = Except.ok obj) (hk : obj.keys? = some ks) :
    h5py_item_completer ctx cmd =
      Except.ok (ks.filter fun i => decide (i.take item.length = item)) := by
  have hps : (posixSplit item).1 = [] := by rw [posixSplit_eq_of_not_mem hnd]
  simp only [h5py_item_completer, hm, ho, hps, listItems, hk]
  simp

theorem item_completer_path (ctx : Shell) (cmd base item : Str) (obj sub : PyObj)
    (ks : List Str)
    (hm : itemMatch cmd = some (base, item)) (hsl : '/' ∈ item)
    (ho : _retrieve_obj ctx base = Except.ok obj)
    (hg : obj.getItem (posixSplit item).1 = Except.ok sub)
    (hk : sub.keys? = some ks) :
    h5py_item_completer ctx cmd =
      Except.ok (((ks.map fun name => posixJoin (posixSplit item).1 name).filter
        fun i => decide (i.take item.length = item))) := by
  have hps : (posixSplit item).1 ≠ [] := posixSplit_fst_ne_nil hsl
  simp only [h5py_item_completer, hm, ho, listItems, hps, hg, hk]
  simp [hps]

theorem item_completer_mem {ctx : Shell} {cmd base item : Str} {l : List Str}
    (hm : itemMatch cmd = some (base, item))
    (h : h5py_item_completer ctx cmd = Except.ok l) :
    ∀ c ∈ l, c.take item.length = item := by
  unfold h5py_item_completer at h
  rw [hm] at h
  dsimp only at h
  cases ho : _retrieve_obj ctx base with
  | error e =>
    rw [ho] at h
    injection h with h'
    subst h'
    intro c hc
    cases hc
  | ok obj =>
    rw [ho] at h
    dsimp only at h
    cases hl : listItems obj (posixSplit item).1 with
    | error e2 =>
      rw [hl] at h
      rcases listItems_error hl with rfl | rfl
      · injection h with h'
        subst h'
        intro c hc
        cases hc
      · cases h
    | ok items =>
      rw [hl] at h
      injection h with h'
      subst h'
      intro c hc
      have := (List.mem_filter.mp hc).2
      exact of_decide_eq_true this

theorem attr_completer_mem {ctx : Shell} {cmd base0 attr : Str} {l : List Str}
    (hm : attrMatch cmd = some (base0, attr))
    (h : h5py_attr_completer ctx cmd = Except.ok l) :
    ∀ c ∈ l, ∃ a, c = strip base0 ++ '.' :: a ∧ a.take attr.length = attr := by
  unfold h5py_attr_completer at h
  rw [hm] at h
  dsimp only at h
  cases ho : _retrieve_obj ctx (strip base0) with
  | error e =>
    rw [ho] at h
    injection h with h'
    subst h'
    intro c hc
    cases hc
  | ok obj =>
    rw [ho] at h
    injection h with h'
    subst h'
    intro c hc
    obtain ⟨a, ha, hca⟩ := List.mem_map.mp hc
    exact ⟨a, hca.symm, of_decide_eq_true (List.mem_filter.mp ha).2⟩

theorem completerFallback_cases (ctx : Shell) (line : Str) :
    (∃ l, completerFallback ctx line = Except.ok l) ∨
    completerFallback ctx line = Except.error Exn.keyError := by
  unfold completerFallback
  cases ha : h5py_attr_completer ctx line with
  | error e =>
    have he := attr_completer_error ha
    subst he
    cases hit : h5py_item_completer ctx line with
    | error e2 =>
      rcases item_completer_error hit with rfl | rfl
      · exact Or.inl ⟨[], rfl⟩
      · exact Or.inr rfl
    | ok l => exact Or.inl ⟨l, rfl⟩
  | ok l => exact Or.inl ⟨l, rfl⟩

example : itemMatch ("f['it".data) = some (("f".data), ("it".data)) := by decide

example : itemMatch ("f['x']['y".data) = some (("f['x']".data), ("y".data)) := by decide

example : attrMatch ("a = b = f['item1'].attrs.".data) =
    some ((" f['item1'].attrs".data), []) := by decide

example : objectMatch ("x=f['a".data) = some ("f".data) := by decide

example : posixSplit ("a/b/c".data) = (("a/b".data), ("c".data)) := by decide

example : posixSplit ("/x".data) = (("/".data), ("x".data)) := by decide

example : posixJoin ("/".data) ("x1".data) = ("/x1".data) := by decide

/-! ### The claims -/

/-- Claim C1: on an item-completion line whose typed item token
contains no `'/'`, when the base expression resolves to an object
whose key listing succeeds, `h5py_item_completer` returns exactly the
keys having the token as a prefix, in listing order. -/
theorem C1_item_keys_filtered (ctx : Shell) (cmd base item : Str) (obj : PyObj)
    (ks : List Str)
    (hm : itemMatch cmd = some (base, item)) (hnd : '/' ∉ item)
    (ho : _retrieve_obj ctx base = Except.ok obj) (hk : obj.keys? = some ks) :
    h5py_item_completer ctx cmd =
      Except.ok (ks.filter fun k => decide (k.take item.length = item)) :=
  item_completer_keys ctx cmd base item obj ks hm hnd ho hk

/-- Witness for C1 at the line `f['it`. -/
theorem C1_item_keys_filtered_witness :
    itemMatch ("f['it".data) = some (("f".data), ("it".data)) ∧
    h5py_item_completer exShellC1 ("f['it".data) =
      Except.ok (([("item1".data), ("item2".data), ("other".data)]).filter
        fun k => decide (k.take ("it".data).length = ("it".data))) :=
  ⟨by decide,
    C1_item_keys_filtered exShellC1 ("f['it".data) ("f".data) ("it".data) exObjC1
      [("item1".data), ("item2".data), ("other".data)]
      (by decide) (by decide) rfl rfl⟩

/-- Claim C2 is falsified at the line `f['bad/x`: with `f` resolving
to an h5py object without a member `bad`, the `KeyError` of the nested
item lookup escapes `h5py_completer`, which thus neither returns a
list nor raises `TryNext`. -/
theorem C2_keyerror_counterexample :
    ¬ ((∃ l, h5py_completer exShellC2 ("f['bad/x".data) = Except.ok l) ∨
      h5py_completer exShellC2 ("f['bad/x".data) = Except.error Exn.tryNext) := by
  have hres : h5py_completer exShellC2 ("f['bad/x".data) = Except.error Exn.keyError := by
    decide
  intro h
  rcases h with ⟨l, hl⟩ | ht
  · rw [hres] at hl
    cases hl
  · rw [hres] at ht
    injection ht with h'
    cases h'

/-- Claim C2 as amended: on every line, `h5py_completer` returns a
list of candidates, raises `TryNext`, propagates the `KeyError` of a
failing nested item lookup, or raises `IndexError` on a line without a
subscript (which the hook's key regex prevents in practice). -/
theorem C2_amended_outcomes (ctx : Shell) (line : Str) :
    (∃ l, h5py_completer ctx line = Except.ok l) ∨
    h5py_completer ctx line = Except.error Exn.tryNext ∨
    h5py_completer ctx line = Except.error Exn.keyError ∨
    h5py_completer ctx line = Except.error Exn.indexError := by
  unfold h5py_completer
  cases hm : objectMatch line with
  | none =>
    right; right; right
    rfl
  | some base =>
    dsimp only
    cases hi : isH5pyInstance (ctx.ofind base) with
    | false =>
      right; left
      simp [hi]
    | true =>
      rcases completerFallback_cases ctx line with ⟨l, hl⟩ | hk
      · left
        exact ⟨l, by simp [hi, hl]⟩
      · right; right; left
        simp [hi, hk]

/-- Claim C3: every candidate the item completer returns has the typed
item token as a prefix, and every candidate the attribute completer
returns is the stripped base, a dot, and an attribute name having the
typed attribute token as a prefix. -/
theorem C3_prefix_invariant (ctx : Shell) (cmd : Str) :
    (∀ base item l, itemMatch cmd = some (base, item) →
      h5py_item_completer ctx cmd = Except.ok l →
      ∀ c ∈ l, c.take item.length = item) ∧
    (∀ base0 attr l, attrMatch cmd = some (base0, attr) →
      h5py_attr_completer ctx cmd = Except.ok l →
      ∀ c ∈ l, ∃ a, c = strip base0 ++ '.' :: a ∧ a.take attr.length = attr) :=
  ⟨fun _base _item _l hm h => item_completer_mem hm h,
   fun _base0 _attr _l hm h => attr_completer_mem hm h⟩

/-- Witness for C3 at the line `f['it` and the candidate `item1`. -/
theorem C3_prefix_invariant_witness :
    ("item1".data).take (("it".data).length) = ("it".data) :=
  (C3_prefix_invariant exShellC3 ("f['it".data)).1 ("f".data) ("it".data)
    [("item1".data), ("item2".data)] (by decide) (by decide) ("item1".data) (by decide)

/-- Claim C4 is falsified at the line `f['/x`: splitting the token
`/x` at the last `'/'` gives the path `""`, whose lookup fails on an
object whose only item key is `"/"`, so the claim's described
procedure produces no list there, while the code (which uses
`posixpath.split` and hence the path `"/"`) returns the candidate
`/x1`. -/
theorem C4_literal_split_counterexample :
    claimC4Items exShellC4 ("f['/x".data) = none ∧
    h5py_item_completer exShellC4 ("f['/x".data) = Except.ok [("/x1".data)] :=
  ⟨by decide, by decide⟩

/-- Claim C4 as amended: on an item-completion line whose typed token
contains a `'/'`, the completer splits the token with
`posixpath.split` (keeping an all-slash path part intact and stripping
trailing slashes otherwise), looks up `obj[path]`, and returns
`posixpath.join(path, name)` for exactly those key names for which the
full typed token is a prefix of the joined string. -/
theorem C4_amended_posix_split (ctx : Shell) (cmd base item : Str) (obj sub : PyObj)
    (ks : List Str)
    (hm : itemMatch cmd = some (base, item)) (hsl : '/' ∈ item)
    (ho : _retrieve_obj ctx base = Except.ok obj)
    (hg : obj.getItem (posixSplit item).1 = Except.ok sub)
    (hk : sub.keys? = some ks) :
    h5py_item_completer ctx cmd =
      Except.ok ((ks.map fun name => posixJoin (posixSplit item).1 name).filter
        fun i => decide (i.take item.length = item)) :=
  item_completer_path ctx cmd base item obj sub ks hm hsl ho hg hk

/-- Witness for the amended C4 at the line `f['/x`. -/
theorem C4_amended_posix_split_witness :
    '/' ∈ ("/x".data) ∧
    h5py_item_completer exShellC4 ("f['/x".data) =
      Except.ok ((([("x1".data)]).map fun name => posixJoin (posixSplit ("/x".data)).1 name).filter
        fun i => decide (i.take ("/x".data).length = ("/x".data))) :=
  ⟨by decide,
    C4_amended_posix_split exShellC4 ("f['/x".data) ("f".data) ("/x".data)
      exRootC4 exSubC4 [("x1".data)] (by decide) (by decide) rfl rfl rfl⟩

/-- Claim C5 is falsified when the shell's `omit__names` setting is 1:
at the line `f['a'].` over an object whose attribute listing is
`["__x"]`, the completer returns no candidates, while the claim's
prefix-filtered formatting of the listing predicts `f['a'].__x`. -/
theorem C5_omit_counterexample :
    h5py_attr_completer exShellC5 ("f['a'].".data) = Except.ok [] ∧
    ¬ (h5py_attr_completer exShellC5 ("f['a'].".data) =
      Except.ok (((extendAttrs exShellC5 exObjC5).filter
          fun a => decide (a.take ([] : Str).length = ([] : Str))).map
        fun a => strip ("f['a']".data) ++ '.' :: a)) :=
  ⟨by decide, by decide⟩

/-- Claim C5 as amended: on an attribute-completion line whose
stripped base resolves to an object, the completer returns
`base + '.' + a` for exactly those names `a` of the attribute listing
(`dir(obj)`, possibly extended by the shell's `complete_object`
generic) that survive the `omit__names` filter and have the typed
attribute token as a prefix. -/
theorem C5_amended_attr_candidates (ctx : Shell) (cmd base0 attr : Str) (obj : PyObj)
    (hm : attrMatch cmd = some (base0, attr))
    (ho : _retrieve_obj ctx (strip base0) = Except.ok obj) :
    h5py_attr_completer ctx cmd =
      Except.ok (((omitFilter (resolveOmitNames ctx) (extendAttrs ctx obj)).filter
          fun a => decide (a.take attr.length = attr)).map
        fun a => strip base0 ++ '.' :: a) :=
  attr_completer_eq ctx cmd base0 attr obj hm ho

/-- Witness for the amended C5 at the line `f['a'].at`. -/
theorem C5_amended_attr_candidates_witness :
    attrMatch ("f['a'].at".data) = some (("f['a']".data), ("at".data)) ∧
    h5py_attr_completer exShellC5w ("f['a'].at".data) =
      Except.ok (((omitFilter (resolveOmitNames exShellC5w)
            (extendAttrs exShellC5w exObjC5w)).filter
          fun a => decide (a.take ("at".data).length = ("at".data))).map
        fun a => strip ("f['a']".data) ++ '.' :: a) :=
  ⟨by decide,
    C5_amended_attr_candidates exShellC5w ("f['a'].at".data) ("f['a']".data) ("at".data)
      exObjC5w (by decide) rfl⟩

/-- Claim C6 is falsified at the line `g['bad/x`: the shell finds an
h5py object for the base `g`, yet `h5py_completer` does not return a
list (and does not raise `TryNext` either): the nested item lookup's
`KeyError` escapes. -/
theorem C6_keyerror_counterexample :
    isH5pyInstance (exShellC6.ofind ("g".data)) = true ∧
    ¬ ((∃ l, h5py_completer exShellC6 ("g['bad/x".data) = Except.ok l) ∨
      h5py_completer exShellC6 ("g['bad/x".data) = Except.error Exn.tryNext) := by
  refine ⟨by decide, ?_⟩
  have hres : h5py_completer exShellC6 ("g['bad/x".data) = Except.error Exn.keyError := by
    decide
  intro h
  rcases h with ⟨l, hl⟩ | ht
  · rw [hres] at hl
    cases hl
  · rw [hres] at ht
    injection ht with h'
    cases h'

/-- Claim C6 as amended: on a line matching the object pattern,
`h5py_completer` raises `TryNext` exactly when the object the shell
finds for the base expression is not an `AttributeManager` or
`HLObject`; otherwise it returns a list of candidates or propagates
the `KeyError` of a failing nested item lookup. -/
theorem C6_amended_trynext_iff (ctx : Shell) (line base : Str)
    (hm : objectMatch line = some base) :
    (h5py_completer ctx line = Except.error Exn.tryNext ↔
      isH5pyInstance (ctx.ofind base) = false) ∧
    (isH5pyInstance (ctx.ofind base) = true →
      (∃ l, h5py_completer ctx line = Except.ok l) ∨
      h5py_completer ctx line = Except.error Exn.keyError) := by
  have hb : h5py_completer ctx line =
      if isH5pyInstance (ctx.ofind base) then completerFallback ctx line
      else Except.error Exn.tryNext := by
    unfold h5py_completer
    rw [hm]
  cases hi : isH5pyInstance (ctx.ofind base) with
  | false =>
    simp [hi] at hb
    exact ⟨by simp [hb, hi], fun hf => by simp [hi] at hf⟩
  | true =>
    simp [hi] at hb
    have hc := completerFallback_cases ctx line
    refine ⟨⟨fun hres => ?_, fun hf => by simp [hi] at hf⟩, fun _ => by rw [hb]; exact hc⟩
    exfalso
    rw [hb] at hres
    rcases hc with ⟨l, hl⟩ | hk
    · rw [hres] at hl
      cases hl
    · rw [hres] at hk
      injection hk with h'
      cases h'

/-- Witness for the amended C6 at the line `h['it`. -/
theorem C6_amended_trynext_iff_witness :
    (h5py_completer exShellC6w ("h['it".data) = Except.error Exn.tryNext ↔
      isH5pyInstance (exShellC6w.ofind ("h".data)) = false) ∧
    (isH5pyInstance (exShellC6w.ofind ("h".data)) = true →
      (∃ l, h5py_completer exShellC6w ("h['it".data) = Except.ok l) ∨
      h5py_completer exShellC6w ("h['it".data) = Except.error Exn.keyError) :=
  C6_amended_trynext_iff exShellC6w ("h['it".data) ("h".data) (by decide)

/-- Claim C7: whenever evaluating the extracted base expression fails,
each sub-completer returns the empty candidate list instead of
propagating the failure. -/
theorem C7_eval_failure_empty (ctx : Shell) (cmd : Str) :
    (∀ base item e, itemMatch cmd = some (base, item) →
      _retrieve_obj ctx base = Except.error e →
      h5py_item_completer ctx cmd = Except.ok []) ∧
    (∀ base0 attr e, attrMatch cmd = some (base0, attr) →
      _retrieve_obj ctx (strip base0) = Except.error e →
      h5py_attr_completer ctx cmd = Except.ok []) := by
  constructor
  · intro base item e hm he
    simp only [h5py_item_completer, hm, he]
  · intro base0 attr e hm he
    simp only [h5py_attr_completer, hm, he]

/-- Witness for C7 at the line `g['x` in a shell where `g` is
undefined. -/
theorem C7_eval_failure_empty_witness :
    itemMatch ("g['x".data) = some (("g".data), ("x".data)) ∧
    h5py_item_completer exShellC7 ("g['x".data) = Except.ok [] :=
  ⟨by decide,
    (C7_eval_failure_empty exShellC7 ("g['x".data)).1 ("g".data) ("x".data) Exn.evalExn
      (by decide) rfl⟩

/-- Claim C8: a base expression containing `'('` is refused with
`ValueError` before any evaluation (for every shell evaluator), and
both sub-completers then yield the empty candidate list. -/
theorem C8_paren_refusal (ctx : Shell) (cmd : Str) :
    (∀ name, name.contains '(' = true →
      _retrieve_obj ctx name = Except.error Exn.valueError) ∧
    (∀ base item, itemMatch cmd = some (base, item) → base.contains '(' = true →
      h5py_item_completer ctx cmd = Except.ok []) ∧
    (∀ base0 attr, attrMatch cmd = some (base0, attr) →
      (strip base0).contains '(' = true →
      h5py_attr_completer ctx cmd = Except.ok []) := by
  have hro : ∀ name, name.contains '(' = true →
      _retrieve_obj ctx name = Except.error Exn.valueError := by
    intro name hc
    unfold _retrieve_obj
    rw [if_pos hc]
  refine ⟨hro, ?_, ?_⟩
  · intro base item hm hc
    simp only [h5py_item_completer, hm, hro base hc]
  · intro base0 attr hm hc
    simp only [h5py_attr_completer, hm, hro (strip base0) hc]

/-- Witness for C8 at the line `f(1)['x`, in a shell whose evaluator
would succeed on every expression. -/
theorem C8_paren_refusal_witness :
    ("f(1)".data).contains '(' = true ∧
    _retrieve_obj exShellC8 ("f(1)".data) = Except.error Exn.valueError ∧
    h5py_item_completer exShellC8 ("f(1)['x".data) = Except.ok [] :=
  ⟨by decide,
    (C8_paren_refusal exShellC8 ("f(1)['x".data)).1 ("f(1)".data) (by decide),
    (C8_paren_refusal exShellC8 ("f(1)['x".data)).2.1 ("f(1)".data) ("x".data)
      (by decide) (by decide)⟩

/-- Claim C9: with `omit__names` resolving to 1 no returned
candidate's attribute part starts with `__`, with 2 none starts with
`_`, and with any other setting the listing is not filtered. -/
theorem C9_omit_names (ctx : Shell) (cmd base0 attr : Str) (obj : PyObj)
    (hm : attrMatch cmd = some (base0, attr))
    (ho : _retrieve_obj ctx (strip base0) = Except.ok obj) :
    (resolveOmitNames ctx = 1 →
      ∀ l, h5py_attr_completer ctx cmd = Except.ok l →
        ∀ c ∈ l, ∃ a, c = strip base0 ++ '.' :: a ∧ ¬ a.take 2 = ['_', '_']) ∧
    (resolveOmitNames ctx = 2 →
      ∀ l, h5py_attr_completer ctx cmd = Except.ok l →
        ∀ c ∈ l, ∃ a, c = strip base0 ++ '.' :: a ∧ ¬ a.take 1 = ['_']) ∧
    (resolveOmitNames ctx ≠ 1 → resolveOmitNames ctx ≠ 2 →
      h5py_attr_completer ctx cmd = Except.ok
        (((extendAttrs ctx obj).filter fun a => decide (a.take attr.length = attr)).map
          fun a => strip base0 ++ '.' :: a)) := by
  have heq := attr_completer_eq ctx cmd base0 attr obj hm ho
  refine ⟨?_, ?_, ?_⟩
  · intro h1 l hl c hc
    rw [heq] at hl
    injection hl with hl'
    subst hl'
    obtain ⟨a, ha, hca⟩ := List.mem_map.mp hc
    refine ⟨a, hca.symm, ?_⟩
    have ha2 := (List.mem_filter.mp ha).1
    rw [h1] at ha2
    unfold omitFilter at ha2
    rw [if_pos rfl] at ha2
    have hfa := (List.mem_filter.mp ha2).2
    simpa using hfa
  · intro h2 l hl c hc
    rw [heq] at hl
    injection hl with hl'
    subst hl'
    obtain ⟨a, ha, hca⟩ := List.mem_map.mp hc
    refine ⟨a, hca.symm, ?_⟩
    have ha2 := (List.mem_filter.mp ha).1
    rw [h2] at ha2
    unfold omitFilter at ha2
    rw [if_neg (by decide), if_pos rfl] at ha2
    have hfa := (List.mem_filter.mp ha2).2
    simpa using hfa
  · intro h1 h2
    rw [heq]
    unfold omitFilter
    rw [if_neg h1, if_neg h2]

/-- Witness for C9 at the line `f['a'].` in a shell with
`omit__names` set to 1 and the candidate `f['a']._semi`. -/
theorem C9_omit_names_witness :
    ∃ a, ("f['a']._semi".data) = strip ("f['a']".data) ++ '.' :: a ∧
      ¬ a.take 2 = ['_', '_'] :=
  (C9_omit_names exShellC9 ("f['a'].".data) ("f['a']".data) ([] : Str) exObjC9
      (by decide) rfl).1 (by decide)
    [("f['a']._semi".data), ("f['a'].pub".data)] (by decide) ("f['a']._semi".data) (by decide)

/-- Claim C10: with readline importable the extension registers the
completer for `complete_command` under the object key regex; without
readline it only issues the warning, leaving the hooks unchanged. -/
theorem C10_load_extension (ip : IpState) :
    load_ipython_extension true ip =
      { hooks := ip.hooks ++ [("complete_command", HookFn.h5pyCompleterFn, objectKeyRe)]
        warnings := ip.warnings } ∧
    load_ipython_extension false ip =
      { hooks := ip.hooks
        warnings := ip.warnings ++ [readlineWarning] } :=
  ⟨rfl, rfl⟩
